import Mathlib

/-!
Shallow embedding of the `tmdb-to-sqlite` ETL pipeline
(`src/json_to_sqlite.py` and `src/json_to_sqlite_filtered.py`).

Decoded JSON values are modelled by `Tmdb.JVal`.  Python's `json.loads`
maps JSON `null` to `None`, and `dict.get` returns `None` for absent keys,
so inside the pipeline an absent field and a `null` field are the same
value; the embedding mirrors that with `Tmdb.pyGet`, which defaults to
`JVal.jnull`.  Python floats are modelled by `Rat`: the pipeline never
computes with numbers, it only compares them against zero, which `Rat`
captures exactly.
-/

namespace Tmdb

/-- A decoded JSON value (the result of Python's `json.loads`).
`jint`/`jfloat` mirror Python's `int`/`float` distinction, `jbool` is kept
separate because `_norm` dispatches on `isinstance(v, bool)` first. -/
inductive JVal where
  | jnull : JVal
  | jbool (b : Bool) : JVal
  | jint (n : Int) : JVal
  | jfloat (q : Rat) : JVal
  | jstr (s : String) : JVal
  | jarr (xs : List JVal) : JVal
  | jobj (fields : List (String × JVal)) : JVal

/-- A decoded JSON object: an association list of fields.  `json.loads`
produces dicts, whose keys are unique, so first-match lookup below agrees
with Python dict lookup. -/
abbrev JObj := List (String × JVal)

/-- One tuple buffered for an SQL insert (a Python `tuple` of values). -/
abbrev Row := List JVal

/-- Python dict key lookup (`movie[k]` / the defined branch of `movie.get(k)`). -/
def lookup : JObj → String → Option JVal
  | [], _ => none
  | (k, v) :: rest, key => if k = key then some v else lookup rest key

/-- Python `movie.get(k)`: absent keys give `None`, which `json.loads`
also uses for JSON `null`, hence the `jnull` default. -/
def pyGet (m : JObj) (k : String) : JVal := (lookup m k).getD .jnull

/-- The two boolean storage encodings: `json_to_sqlite.py` writes
`"yes"/"no"`, `json_to_sqlite_filtered.py` writes `1/0`. -/
inductive BoolEnc where
  | tokenPair : BoolEnc
  | intPair : BoolEnc

/-- Model of `_norm` (lines 21-36 of `json_to_sqlite.py`, lines 23-38 of
`json_to_sqlite_filtered.py`; the two differ only in the boolean branch,
here selected by `enc`):

* booleans are handled first (`isinstance(v, bool)`),
* `v in ("", [], {}, None)` sends the empty string, empty array, empty
  object and `None` to `None`,
* `isinstance(v, (int, float)) and v == 0` sends numeric zero to `None`,
* anything else passes through unchanged. -/
def norm (enc : BoolEnc) (v : JVal) : JVal :=
  match v with
  | .jbool b =>
    match enc with
    | .tokenPair => .jstr (if b then "yes" else "no")
    | .intPair => .jint (if b then 1 else 0)
  | .jnull => .jnull
  | .jstr s => if s = "" then .jnull else .jstr s
  | .jarr xs => if xs.isEmpty then .jnull else .jarr xs
  | .jobj fs => if fs.isEmpty then .jnull else .jobj fs
  | .jint n => if n = 0 then .jnull else .jint n
  | .jfloat q => if q = 0 then .jnull else .jfloat q

/-- Python truthiness of a decoded JSON value (`if v:` / `v or {}`). -/
def truthy : JVal → Bool
  | .jnull => false
  | .jbool b => b
  | .jint n => decide (n ≠ 0)
  | .jfloat q => decide (q ≠ 0)
  | .jstr s => decide (s ≠ "")
  | .jarr xs => !xs.isEmpty
  | .jobj fs => !fs.isEmpty

/-- Decides whether the first char list is an initial segment of the
second (used to model the startswith method of Python strings). -/
def charsPre : List Char → List Char → Bool
  | [], _ => true
  | _ :: _, [] => false
  | a :: as, b :: bs => a = b && charsPre as bs

/-- Python `col.startswith(p)`. -/
def strHasPre (p s : String) : Bool := charsPre p.data s.data

/-- Python `col.replace(p, "")` as used in `_split_record`: every schema
column name that enters this call starts with `p` and contains it exactly
once, so the replacement is removal of the leading prefix. -/
def strDropPre (p s : String) : String := ⟨s.data.drop p.data.length⟩

/-- The fields of a decoded JSON object, with every non-object mapped to
the empty field list.  This models `movie.get(k) or {}` followed by
attribute access: absent keys, `null` and the (falsy) empty object all
become `{}`; a present truthy non-object would raise `AttributeError` in
the source and is outside the modelled input space. -/
def objFields : JVal → JObj
  | .jobj fs => fs
  | _ => []

/-- The elements of a decoded JSON array, with every non-array mapped to
`[]`.  Models `movie.get(k, [])` for the nested-array fields: an absent
key iterates nothing; a present non-array would raise in the source and
is outside the modelled input space. -/
def arrItems : JVal → List JVal
  | .jarr xs => xs
  | _ => []

/-- Model of `movie.get(k, [])` for a nested-array field. -/
def getList (m : JObj) (k : String) : List JVal := arrItems (pyGet m k)

/-- Model of `g.get(k)` on a child-array element `g` (a dict in the source). -/
def pyGetV (v : JVal) (k : String) : JVal := pyGet (objFields v) k

/-- The `scalar_schema` of `json_to_sqlite.py` (lines 50-84): the ordered
(column name, storage type) pairs of the main `movies` table. -/
def scalarSchema : List (String × String) :=
  [("id", "INTEGER PRIMARY KEY"),
   ("adult", "BOOLEAN"),
   ("title", "TEXT"),
   ("original_title", "TEXT"),
   ("video", "BOOLEAN"),
   ("budget", "INTEGER"),
   ("revenue", "INTEGER"),
   ("runtime", "INTEGER"),
   ("status", "TEXT"),
   ("imdb_id", "TEXT"),
   ("tagline", "TEXT"),
   ("homepage", "TEXT"),
   ("overview", "TEXT"),
   ("popularity", "REAL"),
   ("vote_count", "INTEGER"),
   ("vote_average", "REAL"),
   ("release_date", "TEXT"),
   ("original_language", "TEXT"),
   ("poster_path", "TEXT"),
   ("backdrop_path", "TEXT"),
   ("collection_id", "INTEGER"),
   ("collection_name", "TEXT"),
   ("collection_poster_path", "TEXT"),
   ("collection_backdrop_path", "TEXT"),
   ("external_imdb_id", "TEXT"),
   ("external_twitter_id", "TEXT"),
   ("external_facebook_id", "TEXT"),
   ("external_wikidata_id", "TEXT"),
   ("external_instagram_id", "TEXT")]

/-- The `scalar_schema` of `json_to_sqlite_filtered.py` (lines 52-85): same
as the unfiltered schema but without the `adult` column. -/
def fScalarSchema : List (String × String) :=
  [("id", "INTEGER PRIMARY KEY"),
   ("title", "TEXT"),
   ("original_title", "TEXT"),
   ("video", "BOOLEAN"),
   ("budget", "INTEGER"),
   ("revenue", "INTEGER"),
   ("runtime", "INTEGER"),
   ("status", "TEXT"),
   ("imdb_id", "TEXT"),
   ("tagline", "TEXT"),
   ("homepage", "TEXT"),
   ("overview", "TEXT"),
   ("popularity", "REAL"),
   ("vote_count", "INTEGER"),
   ("vote_average", "REAL"),
   ("release_date", "TEXT"),
   ("original_language", "TEXT"),
   ("poster_path", "TEXT"),
   ("backdrop_path", "TEXT"),
   ("collection_id", "INTEGER"),
   ("collection_name", "TEXT"),
   ("collection_poster_path", "TEXT"),
   ("collection_backdrop_path", "TEXT"),
   ("external_imdb_id", "TEXT"),
   ("external_twitter_id", "TEXT"),
   ("external_facebook_id", "TEXT"),
   ("external_wikidata_id", "TEXT"),
   ("external_instagram_id", "TEXT")]

/-- Resolution of one scalar column's raw source value in `_split_record`
(lines 188-199 of `json_to_sqlite.py`, lines 181-189 of the filtered
variant): `collection_`-prefixed columns read from
`belongs_to_collection`, `external_`-prefixed columns read from
`external_ids`, all others read the like-named top-level field. -/
def resolveCol (movie : JObj) (col : String) : JVal :=
  if strHasPre "collection_" col then
    let collection := objFields (pyGet movie "belongs_to_collection")
    pyGet collection (strDropPre "collection_" col)
  else if strHasPre "external_" col then
    let ext := objFields (pyGet movie "external_ids")
    pyGet ext (strDropPre "external_" col)
  else
    pyGet movie col

/-- One `movie_genres` tuple. -/
def genreRow (enc : BoolEnc) (mid g : JVal) : Row :=
  [mid, norm enc (pyGetV g "id"), norm enc (pyGetV g "name")]

/-- One `movie_spoken_languages` tuple. -/
def langRow (enc : BoolEnc) (mid lang : JVal) : Row :=
  [mid, norm enc (pyGetV lang "iso_639_1"), norm enc (pyGetV lang "name"),
   norm enc (pyGetV lang "english_name")]

/-- One `movie_origin_countries` tuple (`origin_country` elements are
plain scalars, normalized directly). -/
def isoRow (enc : BoolEnc) (mid iso : JVal) : Row :=
  [mid, norm enc iso]

/-- One `movie_production_companies` tuple. -/
def companyRow (enc : BoolEnc) (mid pc : JVal) : Row :=
  [mid, norm enc (pyGetV pc "id"), norm enc (pyGetV pc "name"),
   norm enc (pyGetV pc "origin_country"), norm enc (pyGetV pc "logo_path")]

/-- One `movie_production_countries` tuple. -/
def countryRow (enc : BoolEnc) (mid c : JVal) : Row :=
  [mid, norm enc (pyGetV c "iso_3166_1"), norm enc (pyGetV c "name")]

/-- One `movie_videos` tuple. -/
def videoRow (enc : BoolEnc) (mid v : JVal) : Row :=
  [mid, norm enc (pyGetV v "id"), norm enc (pyGetV v "key"),
   norm enc (pyGetV v "name"), norm enc (pyGetV v "site"),
   norm enc (pyGetV v "size"), norm enc (pyGetV v "type"),
   norm enc (pyGetV v "official"), norm enc (pyGetV v "published_at")]

/-- The per-child-table tuple lists produced by `_split_record` (the
`children` dict keyed by the six child table names). -/
structure Children where
  movie_genres : List Row := []
  movie_spoken_languages : List Row := []
  movie_origin_countries : List Row := []
  movie_production_companies : List Row := []
  movie_production_countries : List Row := []
  movie_videos : List Row := []

/-- Errors that abort a record split: `movie["id"]` raises `KeyError`
when the field is absent (line 202 of `json_to_sqlite.py`, line 192 of
the filtered variant). -/
inductive SplitErr where
  | idKeyError : SplitErr

/-- Model of `_split_record`, common to both variants (they differ only in the
boolean encoding of `_norm` and in the scalar schema): the main tuple is
built first by normalizing every resolved scalar column, then
`mid = movie["id"]` fetches the raw parent id (raising `KeyError` when
absent) and each nested array contributes one tuple per element, headed
by the raw `mid`.  `videos` is read from the two-level path
`movie.get("videos", {}).get("results", [])`. -/
def splitCore (enc : BoolEnc) (schema : List (String × String)) (movie : JObj) :
    Except SplitErr (Row × Children) :=
  let mainRow : Row := schema.map fun ct => norm enc (resolveCol movie ct.1)
  match lookup movie "id" with
  | none => .error .idKeyError
  | some mid =>
    .ok (mainRow,
      { movie_genres := (getList movie "genres").map (genreRow enc mid),
        movie_spoken_languages :=
          (getList movie "spoken_languages").map (langRow enc mid),
        movie_origin_countries :=
          (getList movie "origin_country").map (isoRow enc mid),
        movie_production_companies :=
          (getList movie "production_companies").map (companyRow enc mid),
        movie_production_countries :=
          (getList movie "production_countries").map (countryRow enc mid),
        movie_videos :=
          (arrItems (pyGet (objFields (pyGet movie "videos")) "results")).map
            (videoRow enc mid) })

/-- Model of `JSONToSQLiteTransfer._split_record` in `json_to_sqlite.py`. -/
def splitRecord (movie : JObj) : Except SplitErr (Row × Children) :=
  splitCore .tokenPair scalarSchema movie

/-- Model of `JSONToSQLiteFiltered._split_record` in `json_to_sqlite_filtered.py`. -/
def fSplitRecord (movie : JObj) : Except SplitErr (Row × Children) :=
  splitCore .intPair fScalarSchema movie

/-- Python membership test of a value against the pair of None and the
empty string, as written in `_should_skip`. -/
def emptyOrNone : JVal → Bool
  | .jnull => true
  | .jstr s => s == ""
  | _ => false

/-- Model of `JSONToSQLiteFiltered._should_skip` (lines 235-261): exclusion when
`movie.get("adult", False)` is truthy, or `poster_path` is `None`/empty,
or `overview` is `None`/empty (the remaining criteria are commented out
in the source). -/
def shouldSkip (movie : JObj) : Bool :=
  if truthy ((lookup movie "adult").getD (.jbool false)) then true
  else if emptyOrNone (pyGet movie "poster_path") then true
  else if emptyOrNone (pyGet movie "overview") then true
  else false

/-- The rows accumulated in the target database: the main `movies` table
plus the six child tables. -/
structure DB where
  movies : List Row := []
  children : Children := {}

/-- Pointwise concatenation of child-table row buffers (the
`batch_children[tbl].extend(rows)` loop, and the child part of a flush). -/
def appendCh (a b : Children) : Children :=
  { movie_genres := a.movie_genres ++ b.movie_genres,
    movie_spoken_languages := a.movie_spoken_languages ++ b.movie_spoken_languages,
    movie_origin_countries := a.movie_origin_countries ++ b.movie_origin_countries,
    movie_production_companies := a.movie_production_companies ++ b.movie_production_companies,
    movie_production_countries := a.movie_production_countries ++ b.movie_production_countries,
    movie_videos := a.movie_videos ++ b.movie_videos }

/-- Model of `_flush` (lines 316-330 of `json_to_sqlite.py`, identical in the
filtered variant): if the main batch is empty it returns immediately
(touching nothing, clearing nothing); otherwise one transaction inserts
the main batch and every non-empty child batch, and the buffers are
cleared.  Returns the new database contents together with the (cleared)
buffers, modelling Python's in-place `list.clear()`. -/
def flush (db : DB) (batchMain : List Row) (batchChildren : Children) :
    DB × List Row × Children :=
  if batchMain.isEmpty then (db, batchMain, batchChildren)
  else
    ({ movies := db.movies ++ batchMain,
       children := appendCh db.children batchChildren }, [], {})

/-- One input line of the JSONL file as seen by the read loop: blank
(skipped), undecodable JSON (warned and skipped), or a decoded movie
object. -/
inductive Line where
  | blank : Line
  | bad : Line
  | good (movie : JObj) : Line

/-- The mutable state of `JSONToSQLiteTransfer.transfer`: the database
contents, the two batch buffers, the running `total`, and counters for
the automatic flushes and `[WARN]` lines (observations of the run). -/
structure XferState where
  db : DB := {}
  batchMain : List Row := []
  batchChildren : Children := {}
  total : Nat := 0
  autoFlushes : Nat := 0
  warnings : Nat := 0

/-- One iteration of the read loop of `JSONToSQLiteTransfer.transfer`
(lines 285-304): blank lines are skipped, bad JSON is warned about and
skipped, a decoded movie is split (`KeyError` from `_split_record` is
not caught here — it propagates), its rows are appended to the batch
buffers, and once the main buffer reaches `batch_size` an automatic
flush runs and `total += batch_size`. -/
def stepLine (B : Nat) (st : XferState) (l : Line) : Except SplitErr XferState :=
  match l with
  | .blank => .ok st
  | .bad => .ok { st with warnings := st.warnings + 1 }
  | .good movie =>
    match splitRecord movie with
    | .error e => .error e
    | .ok (mainRow, ch) =>
      let bm := st.batchMain ++ [mainRow]
      let bc := appendCh st.batchChildren ch
      if B ≤ bm.length then
        match flush st.db bm bc with
        | (db2, bm2, bc2) =>
          .ok { db := db2, batchMain := bm2, batchChildren := bc2,
                total := st.total + B, autoFlushes := st.autoFlushes + 1,
                warnings := st.warnings }
      else
        .ok { st with batchMain := bm, batchChildren := bc }

/-- The read loop: process lines in order; an uncaught split error
terminates the run. -/
def runLines (B : Nat) : XferState → List Line → Except SplitErr XferState
  | st, [] => .ok st
  | st, l :: ls =>
    match stepLine B st l with
    | .error e => .error e
    | .ok st2 => runLines B st2 ls

/-- The epilogue of `transfer` (lines 306-307): the final flush of any
remainder, followed by `total += len(batch_main)`.  `_flush` clears
`batch_main` in place before that line runs, so the length read there is
the length of the already-cleared buffer. -/
def finalFlush (st : XferState) : XferState :=
  match flush st.db st.batchMain st.batchChildren with
  | (db2, bm2, bc2) =>
    { st with
      db := db2, batchMain := bm2, batchChildren := bc2,
      total := st.total + bm2.length }

/-- Model of `JSONToSQLiteTransfer.transfer` restricted to its core pipeline: the
read loop over the decoded input lines followed by the final flush.
`B` is `self.batch_size` (set to 1000 in `__init__`). -/
def transfer (B : Nat) (lines : List Line) : Except SplitErr XferState :=
  (runLines B {} lines).map finalFlush

/-- The mutable state of `JSONToSQLiteFiltered.transfer`: as `XferState`
plus the `skipped` counter. -/
structure FState where
  db : DB := {}
  batchMain : List Row := []
  batchChildren : Children := {}
  total : Nat := 0
  autoFlushes : Nat := 0
  warnings : Nat := 0
  skipped : Nat := 0

/-- One iteration of the read loop of `JSONToSQLiteFiltered.transfer`
(lines 287-310): as the unfiltered loop, except that a decoded movie
failing `_should_skip` only increments `skipped` and is never split. -/
def fStepLine (B : Nat) (st : FState) (l : Line) : Except SplitErr FState :=
  match l with
  | .blank => .ok st
  | .bad => .ok { st with warnings := st.warnings + 1 }
  | .good movie =>
    if shouldSkip movie then .ok { st with skipped := st.skipped + 1 }
    else
      match fSplitRecord movie with
      | .error e => .error e
      | .ok (mainRow, ch) =>
        let bm := st.batchMain ++ [mainRow]
        let bc := appendCh st.batchChildren ch
        if B ≤ bm.length then
          match flush st.db bm bc with
          | (db2, bm2, bc2) =>
            .ok { db := db2, batchMain := bm2, batchChildren := bc2,
                  total := st.total + B, autoFlushes := st.autoFlushes + 1,
                  warnings := st.warnings, skipped := st.skipped }
        else
          .ok { st with batchMain := bm, batchChildren := bc }

/-- The filtered read loop. -/
def fRunLines (B : Nat) : FState → List Line → Except SplitErr FState
  | st, [] => .ok st
  | st, l :: ls =>
    match fStepLine B st l with
    | .error e => .error e
    | .ok st2 => fRunLines B st2 ls

/-- The epilogue of the filtered `transfer` (lines 313-314), with the
same cleared-buffer accounting as the unfiltered variant. -/
def fFinalFlush (st : FState) : FState :=
  match flush st.db st.batchMain st.batchChildren with
  | (db2, bm2, bc2) =>
    { st with
      db := db2, batchMain := bm2, batchChildren := bc2,
      total := st.total + bm2.length }

/-- Model of `JSONToSQLiteFiltered.transfer` restricted to its core pipeline. -/
def fTransfer (B : Nat) (lines : List Line) : Except SplitErr FState :=
  (fRunLines B {} lines).map fFinalFlush

/-- Holds when a stored value is a scalar or NULL, i.e. not a JSON array
or object kept verbatim. -/
def storedScalar : JVal → Bool
  | .jarr _ => false
  | .jobj _ => false
  | _ => true

/-- Holds when a raw source value is not a non-empty array or object;
such values are exactly the ones `_norm` turns into scalars or NULL. -/
def srcOk : JVal → Bool
  | .jarr (_ :: _) => false
  | .jobj (_ :: _) => false
  | _ => true

/-- The raw source values resolved for the scalar columns of a movie,
in schema order (the arguments `_split_record` passes to `_norm` for the
main tuple). -/
def mainSrc (schema : List (String × String)) (movie : JObj) : List JVal :=
  schema.map fun ct => resolveCol movie ct.1

/-- The raw source values the child tuples of a movie are normalized
from (the arguments `_split_record` passes to `_norm` for child rows). -/
def childSrc (movie : JObj) : List JVal :=
  ((getList movie "genres").flatMap fun g =>
    [pyGetV g "id", pyGetV g "name"]) ++
  ((getList movie "spoken_languages").flatMap fun lang =>
    [pyGetV lang "iso_639_1", pyGetV lang "name", pyGetV lang "english_name"]) ++
  (getList movie "origin_country") ++
  ((getList movie "production_companies").flatMap fun pc =>
    [pyGetV pc "id", pyGetV pc "name", pyGetV pc "origin_country",
     pyGetV pc "logo_path"]) ++
  ((getList movie "production_countries").flatMap fun c =>
    [pyGetV c "iso_3166_1", pyGetV c "name"]) ++
  ((arrItems (pyGet (objFields (pyGet movie "videos")) "results")).flatMap fun v =>
    [pyGetV v "id", pyGetV v "key", pyGetV v "name", pyGetV v "site",
     pyGetV v "size", pyGetV v "type", pyGetV v "official",
     pyGetV v "published_at"])

/-- All child tuples of a split record, across the six child tables. -/
def allRows (ch : Children) : List Row :=
  ch.movie_genres ++ ch.movie_spoken_languages ++ ch.movie_origin_countries ++
  ch.movie_production_companies ++ ch.movie_production_countries ++
  ch.movie_videos

/-- A minimal valid movie line: just an integer `id`. -/
def sampleMovie : JObj := [("id", .jint 7)]

/-- The main tuple `_split_record` produces for `sampleMovie`: the raw
id normalizes to itself, every other column is absent and normalizes to
NULL. -/
def sampleRow : Row := .jint 7 :: List.replicate 28 .jnull

/-- A movie object with no `id` field at all. -/
def noIdMovie : JObj := [("title", .jstr "A")]

/-- A movie whose `title` field holds a non-empty JSON array. -/
def arrTitleMovie : JObj := [("id", .jint 1), ("title", .jarr [.jint 1])]

/-- A well-formed movie with one genre. -/
def goodMovie : JObj :=
  [("id", .jint 5), ("title", .jstr "X"),
   ("genres", .jarr [.jobj [("id", .jint 1), ("name", .jstr "Action")]])]

/-- A movie whose `adult` flag is `true`. -/
def adultMovie : JObj := [("adult", .jbool true)]

/-- A movie whose `id` is the integer 0, with one genre. -/
def zeroIdMovie : JObj :=
  [("id", .jint 0),
   ("genres", .jarr [.jobj [("id", .jint 28), ("name", .jstr "Action")]])]

/-- The transfer state after `q` automatic flushes and with `r` copies of
`row` still buffered, for an input of identical childless movie lines:
the database holds the `q * B` flushed rows, `total` counts `B` per
automatic flush, and no warnings occurred. -/
def repState (B q r : Nat) (row : Row) : XferState :=
  { db := { movies := List.replicate (q * B) row },
    batchMain := List.replicate r row,
    batchChildren := {},
    total := q * B,
    autoFlushes := q,
    warnings := 0 }

end Tmdb

namespace Tmdb

theorem splitRecord_sample : splitRecord sampleMovie = .ok (sampleRow, {}) := rfl

theorem appendCh_empty : appendCh {} {} = ({} : Children) := rfl

theorem stepLine_rep_noflush (B q r : Nat) (hr : r + 1 < B) :
    stepLine B (repState B q r sampleRow) (.good sampleMovie) =
      .ok (repState B q (r + 1) sampleRow) := by
  simp only [stepLine, splitRecord_sample, repState]
  rw [if_neg (by simp [List.length_append, List.length_replicate]; omega)]
  simp [appendCh_empty, List.replicate_succ']

theorem stepLine_rep_flush (B q r : Nat) (hr : r + 1 = B) :
    stepLine B (repState B q r sampleRow) (.good sampleMovie) =
      .ok (repState B (q + 1) 0 sampleRow) := by
  simp only [stepLine, splitRecord_sample, repState]
  rw [if_pos (by simp [List.length_append, List.length_replicate]; omega)]
  have hne : (List.replicate r sampleRow ++ [sampleRow]).isEmpty = false := by
    simp
  simp only [appendCh_empty, flush, hne, Bool.false_eq_true, if_false]
  simp [← List.replicate_succ', ← List.replicate_add, hr, Nat.succ_mul,
    List.replicate_zero]

theorem runLines_rep (B : Nat) :
    ∀ (k q r : Nat), r < B →
    runLines B (repState B q r sampleRow)
        (List.replicate k (.good sampleMovie)) =
      .ok (repState B (q + (r + k) / B) ((r + k) % B) sampleRow) := by
  intro k
  induction k with
  | zero =>
    intro q r hr
    simp [runLines, Nat.div_eq_of_lt hr, Nat.mod_eq_of_lt hr]
  | succ k ih =>
    intro q r hr
    rw [List.replicate_succ]
    by_cases h : r + 1 < B
    · rw [runLines, stepLine_rep_noflush B q r h]
      show runLines B (repState B q (r + 1) sampleRow)
          (List.replicate k (.good sampleMovie)) = _
      rw [ih q (r + 1) h]
      have e : r + 1 + k = r + (k + 1) := by omega
      rw [e]
    · have hB : r + 1 = B := by omega
      rw [runLines, stepLine_rep_flush B q r hB]
      have h0 : 0 < B := by omega
      show runLines B (repState B (q + 1) 0 sampleRow)
          (List.replicate k (.good sampleMovie)) = _
      rw [ih (q + 1) 0 h0]
      have e1 : q + 1 + (0 + k) / B = q + (r + (k + 1)) / B := by
        have : r + (k + 1) = k + B := by omega
        rw [this, Nat.add_div_right k h0, Nat.zero_add]
        omega
      have e2 : (0 + k) % B = (r + (k + 1)) % B := by
        have : r + (k + 1) = B + k := by omega
        rw [this, Nat.add_mod_left, Nat.zero_add]
      rw [e1, e2]

theorem runLines_init_2500 :
    runLines 1000 {} (List.replicate 2500 (.good sampleMovie)) =
      .ok (repState 1000 2 500 sampleRow) := by
  have h := runLines_rep 1000 2500 0 0 (by omega)
  rw [show (0 + (0 + 2500) / 1000) = 2 by norm_num,
    show ((0 + 2500) % 1000) = 500 by norm_num] at h
  exact h

/-- C5: over 2500 valid input lines with `batch_size = 1000`, the read
loop triggers exactly 2 automatic flushes, leaves 500 rows buffered, and
the final flush stores them, so the database holds all 2500 rows; a final
flush always runs after input is exhausted and is a no-op on empty
buffers.  However the *reported* total is 2000, not 2500: `_flush` clears
`batch_main` in place, so the subsequent `total += len(batch_main)` adds
the length of the already-cleared buffer.  This contradicts the claimed
reported total of 2500 (the stored rows do number 2500). -/
theorem C5_batching_and_reported_total :
    ((runLines 1000 {} (List.replicate 2500 (.good sampleMovie))).map
        (fun st => (st.autoFlushes, st.batchMain.length, st.total,
          st.db.movies.length)) = .ok (2, 500, 2000, 2000)) ∧
    ((transfer 1000 (List.replicate 2500 (.good sampleMovie))).map
        (fun st => (st.autoFlushes, st.total, st.db.movies.length,
          st.batchMain.length)) = .ok (2, 2000, 2500, 0)) ∧
    (∀ (db : DB) (bc : Children), flush db [] bc = (db, [], bc)) := by
  refine ⟨?_, ?_, fun db bc => rfl⟩
  · rw [runLines_init_2500]
    simp only [Except.map, repState, List.length_replicate]
  · rw [transfer, runLines_init_2500]
    have hne : (List.replicate 500 sampleRow).isEmpty = false := rfl
    simp only [Except.map, finalFlush, repState, flush, hne,
      Bool.false_eq_true, if_false, List.length_append,
      List.length_replicate, List.length_nil]

theorem runLines_append (B : Nat) (st : XferState) (l1 l2 : List Line) :
    runLines B st (l1 ++ l2) =
      match runLines B st l1 with
      | .error e => .error e
      | .ok st2 => runLines B st2 l2 := by
  induction l1 generalizing st with
  | nil => rfl
  | cons l ls ih =>
    rw [List.cons_append, runLines, runLines]
    cases stepLine B st l with
    | error e => rfl
    | ok st2 => exact ih st2

theorem splitCore_no_id (enc : BoolEnc) (schema : List (String × String))
    (movie : JObj) (h : lookup movie "id" = none) :
    splitCore enc schema movie = .error .idKeyError := by
  simp [splitCore, h]

/-- C1 (amended): a movie object lacking an `id` field makes
`_split_record` raise `KeyError` (there is no normalization fallback and
no rows are produced for the record), but the read loop does **not**
catch it: whatever valid lines precede it, the run terminates with the
error, and subsequent input lines are never processed. -/
theorem C1_missing_id_terminates_run (B : Nat) (pre post : List Line)
    (movie : JObj) (st : XferState)
    (hid : lookup movie "id" = none)
    (hpre : runLines B {} pre = .ok st) :
    transfer B (pre ++ .good movie :: post) = .error .idKeyError := by
  rw [transfer, runLines_append, hpre]
  show Except.map _ (match stepLine B st (.good movie) with
    | .error e => .error e
    | .ok st2 => runLines B st2 post) = _
  have hstep : stepLine B st (.good movie) = .error .idKeyError := by
    simp [stepLine, splitRecord, splitCore_no_id _ _ _ hid]
  rw [hstep]
  rfl

/-- Witness for C1 (amended), at a concrete two-line input whose first
movie lacks `id`. -/
theorem C1_missing_id_terminates_run_witness :
    transfer 1000 ([] ++ .good noIdMovie :: [.good sampleMovie]) =
      .error .idKeyError :=
  C1_missing_id_terminates_run 1000 [] [.good sampleMovie] noIdMovie {} rfl rfl

/-- Counterexample to C1 as stated: on an input whose first line lacks
`id` and whose second line is valid, the run does not skip the bad
record and continue — it terminates with the uncaught `KeyError`, so no
state (and no stored rows) results at all. -/
theorem C1_counterexample :
    transfer 1000 [.good noIdMovie, .good sampleMovie] = .error .idKeyError :=
  rfl

/-- C2 (counterexample): under the integer-pair boolean encoding the
normalizer is not idempotent at `false`: it encodes `false` as the
integer `0`, which a second application sends to NULL. -/
theorem C2_counterexample :
    norm .intPair (norm .intPair (.jbool false)) ≠
      norm .intPair (.jbool false) := by
  show JVal.jnull ≠ JVal.jint 0
  exact fun h => JVal.noConfusion h

/-- C2 (amended): the normalizer is idempotent on every value under the
token-pair encoding; under the integer-pair encoding it is idempotent on
every value except the boolean `false`, whose encoding `0` re-normalizes
to NULL. -/
theorem C2_norm_idempotent :
    (∀ v, norm .tokenPair (norm .tokenPair v) = norm .tokenPair v) ∧
    (∀ v, v ≠ .jbool false →
      norm .intPair (norm .intPair v) = norm .intPair v) := by
  constructor
  · intro v
    cases v with
    | jnull => rfl
    | jbool b => cases b <;> rfl
    | jint n =>
      rcases eq_or_ne n 0 with h | h
      · subst h; rfl
      · simp [norm, h]
    | jfloat q =>
      rcases eq_or_ne q 0 with h | h
      · subst h; simp [norm]
      · simp [norm, h]
    | jstr s =>
      rcases eq_or_ne s "" with h | h
      · subst h; rfl
      · simp [norm, h]
    | jarr xs => cases xs <;> simp [norm, List.isEmpty]
    | jobj fs => cases fs <;> simp [norm, List.isEmpty]
  · intro v hv
    cases v with
    | jnull => rfl
    | jbool b =>
      cases b with
      | false => exact absurd rfl hv
      | true => rfl
    | jint n =>
      rcases eq_or_ne n 0 with h | h
      · subst h; rfl
      · simp [norm, h]
    | jfloat q =>
      rcases eq_or_ne q 0 with h | h
      · subst h; simp [norm]
      · simp [norm, h]
    | jstr s =>
      rcases eq_or_ne s "" with h | h
      · subst h; rfl
      · simp [norm, h]
    | jarr xs => cases xs <;> simp [norm, List.isEmpty]
    | jobj fs => cases fs <;> simp [norm, List.isEmpty]

/-- Witness for C2 (amended) at the concrete value `5`. -/
theorem C2_norm_idempotent_witness :
    (JVal.jint 5 ≠ .jbool false) ∧
    norm .intPair (norm .intPair (.jint 5)) = norm .intPair (.jint 5) :=
  ⟨fun h => JVal.noConfusion h,
   C2_norm_idempotent.2 (.jint 5) (fun h => JVal.noConfusion h)⟩

/-- C4: booleans are encoded before the zero-is-NULL rule can see them:
`true`/`false` map to `"yes"`/`"no"` under the token-pair policy and to
`1`/`0` under the integer-pair policy, and neither encoding is NULL. -/
theorem C4_bool_encoding_first : ∀ b : Bool,
    norm .tokenPair (.jbool b) = .jstr (if b then "yes" else "no") ∧
    norm .intPair (.jbool b) = .jint (if b then 1 else 0) ∧
    norm .tokenPair (.jbool b) ≠ .jnull ∧
    norm .intPair (.jbool b) ≠ .jnull := by
  intro b
  cases b <;>
    exact ⟨rfl, rfl, fun h => JVal.noConfusion h, fun h => JVal.noConfusion h⟩

/-- C7: the normalizer sends `0`, `0.0`, the empty string, the empty
array, the empty object and NULL to NULL under either boolean encoding;
an absent field reads as NULL (Python `None`) and so also normalizes to
NULL. -/
theorem C7_empties_to_null : ∀ enc : BoolEnc,
    norm enc (.jint 0) = .jnull ∧ norm enc (.jfloat 0) = .jnull ∧
    norm enc (.jstr "") = .jnull ∧ norm enc (.jarr []) = .jnull ∧
    norm enc (.jobj []) = .jnull ∧ norm enc .jnull = .jnull ∧
    (∀ (m : JObj) (k : String), lookup m k = none →
      norm enc (pyGet m k) = .jnull) := by
  intro enc
  refine ⟨rfl, ?_, rfl, rfl, rfl, rfl, ?_⟩
  · simp [norm]
  · intro m k h
    simp [pyGet, h, norm]

/-- Witness for C7 at a concrete absent key. -/
theorem C7_empties_to_null_witness :
    lookup [] "runtime" = none ∧
    norm .tokenPair (pyGet [] "runtime") = .jnull :=
  ⟨rfl, (C7_empties_to_null .tokenPair).2.2.2.2.2.2 [] "runtime" rfl⟩

theorem norm_srcOk (enc : BoolEnc) (v : JVal) (h : srcOk v = true) :
    storedScalar (norm enc v) = true := by
  cases v with
  | jnull => rfl
  | jbool b => cases enc <;> rfl
  | jint n => rcases eq_or_ne n 0 with h0 | h0 <;> simp [norm, h0, storedScalar]
  | jfloat q => rcases eq_or_ne q 0 with h0 | h0 <;> simp [norm, h0, storedScalar]
  | jstr s => rcases eq_or_ne s "" with h0 | h0 <;> simp [norm, h0, storedScalar]
  | jarr xs =>
    cases xs with
    | nil => rfl
    | cons y ys => simp [srcOk] at h
  | jobj fs =>
    cases fs with
    | nil => rfl
    | cons y ys => simp [srcOk] at h

theorem row_scalar (enc : BoolEnc) (mid : JVal) (srcs : List JVal)
    (hmid : storedScalar mid = true)
    (hs : ∀ v ∈ srcs, srcOk v = true) :
    ∀ x ∈ mid :: srcs.map (norm enc), storedScalar x = true := by
  intro x hx
  rcases List.mem_cons.1 hx with rfl | hx
  · exact hmid
  · obtain ⟨v, hv, rfl⟩ := List.mem_map.1 hx
    exact norm_srcOk enc v (hs v hv)

/-- C3 (counterexample): a non-empty JSON array in a scalar source field
passes through `_norm` unchanged and appears verbatim in the main tuple
(here at index 2, the `title` column), so the splitter's tuples are not
always free of nested structures. -/
theorem C3_counterexample :
    (splitRecord arrTitleMovie).map (fun r => r.1.get? 2) =
      .ok (some (.jarr [.jint 1])) ∧
    storedScalar (.jarr [.jint 1]) = false :=
  ⟨rfl, rfl⟩

/-- C3 (amended): every stored value is `_norm` of its raw source value
(the raw `id` back-reference aside), and `_norm` never creates a nested
structure: provided every resolved scalar-column source, every child
element field and the raw `id` are free of non-empty arrays/objects, all
tuples produced by the splitter contain only normalized scalars or NULL.
A non-empty array or object in a source field, however, is passed
through verbatim (see the counterexample). -/
theorem C3_scalars_only (enc : BoolEnc) (schema : List (String × String))
    (movie : JObj) (mid : JVal)
    (hid : lookup movie "id" = some mid)
    (hmid : storedScalar mid = true)
    (hmain : ∀ v ∈ mainSrc schema movie, srcOk v = true)
    (hch : ∀ v ∈ childSrc movie, srcOk v = true) :
    ∃ mainRow ch, splitCore enc schema movie = .ok (mainRow, ch) ∧
      (∀ x ∈ mainRow, storedScalar x = true) ∧
      (∀ t ∈ allRows ch, ∀ x ∈ t, storedScalar x = true) := by
  rcases hsp : splitCore enc schema movie with e | P
  · exfalso
    simp [splitCore, hid] at hsp
  obtain ⟨M, C⟩ := P
  simp only [splitCore, hid] at hsp
  injection hsp with hsp
  injection hsp with hM hC
  refine ⟨M, C, rfl, ?_, ?_⟩
  · intro x hx
    rw [← hM] at hx
    obtain ⟨ct, hct, rfl⟩ := List.mem_map.1 hx
    exact norm_srcOk enc _ (hmain _ (List.mem_map_of_mem _ hct))
  · intro t ht
    rw [← hC] at ht
    simp only [allRows, List.mem_append] at ht
    rcases ht with ((((h | h) | h) | h) | h) | h
    · obtain ⟨g, hg, rfl⟩ := List.mem_map.1 h
      refine row_scalar enc mid [pyGetV g "id", pyGetV g "name"] hmid ?_
      intro v hv
      refine hch v (List.mem_append_left _ (List.mem_append_left _
        (List.mem_append_left _ (List.mem_append_left _
          (List.mem_append_left _ (List.mem_flatMap.2 ⟨g, hg, hv⟩))))))
    · obtain ⟨lang, hg, rfl⟩ := List.mem_map.1 h
      refine row_scalar enc mid
        [pyGetV lang "iso_639_1", pyGetV lang "name",
         pyGetV lang "english_name"] hmid ?_
      intro v hv
      exact hch v (List.mem_append_left _ (List.mem_append_left _
        (List.mem_append_left _ (List.mem_append_left _
          (List.mem_append_right _ (List.mem_flatMap.2 ⟨lang, hg, hv⟩))))))
    · obtain ⟨iso, hg, rfl⟩ := List.mem_map.1 h
      refine row_scalar enc mid [iso] hmid ?_
      intro v hv
      rcases List.mem_singleton.1 hv with rfl
      exact hch v (List.mem_append_left _ (List.mem_append_left _
        (List.mem_append_left _ (List.mem_append_right _ hg))))
    · obtain ⟨pc, hg, rfl⟩ := List.mem_map.1 h
      refine row_scalar enc mid
        [pyGetV pc "id", pyGetV pc "name", pyGetV pc "origin_country",
         pyGetV pc "logo_path"] hmid ?_
      intro v hv
      exact hch v (List.mem_append_left _ (List.mem_append_left _
        (List.mem_append_right _ (List.mem_flatMap.2 ⟨pc, hg, hv⟩))))
    · obtain ⟨c, hg, rfl⟩ := List.mem_map.1 h
      refine row_scalar enc mid [pyGetV c "iso_3166_1", pyGetV c "name"]
        hmid ?_
      intro v hv
      exact hch v (List.mem_append_left _
        (List.mem_append_right _ (List.mem_flatMap.2 ⟨c, hg, hv⟩)))
    · obtain ⟨vd, hg, rfl⟩ := List.mem_map.1 h
      refine row_scalar enc mid
        [pyGetV vd "id", pyGetV vd "key", pyGetV vd "name",
         pyGetV vd "site", pyGetV vd "size", pyGetV vd "type",
         pyGetV vd "official", pyGetV vd "published_at"] hmid ?_
      intro v hv
      exact hch v (List.mem_append_right _ (List.mem_flatMap.2 ⟨vd, hg, hv⟩))

/-- Witness for C3 (amended) at a concrete movie with one genre. -/
theorem C3_scalars_only_witness :
    (lookup goodMovie "id" = some (.jint 5) ∧
     storedScalar (.jint 5) = true ∧
     (∀ v ∈ mainSrc scalarSchema goodMovie, srcOk v = true) ∧
     (∀ v ∈ childSrc goodMovie, srcOk v = true)) ∧
    (∃ mainRow ch,
      splitCore .tokenPair scalarSchema goodMovie = .ok (mainRow, ch) ∧
      (∀ x ∈ mainRow, storedScalar x = true) ∧
      (∀ t ∈ allRows ch, ∀ x ∈ t, storedScalar x = true)) :=
  ⟨⟨rfl, rfl, by decide, by decide⟩,
   C3_scalars_only .tokenPair scalarSchema goodMovie (.jint 5) rfl rfl
     (by decide) (by decide)⟩

theorem emptyOrNone_pyGet (m : JObj) (k : String) :
    emptyOrNone (pyGet m k) = true ↔
      (lookup m k = none ∨ lookup m k = some .jnull ∨
       lookup m k = some (.jstr "")) := by
  rcases h : lookup m k with _ | v
  · simp [pyGet, h, emptyOrNone]
  · cases v <;> simp [pyGet, h, emptyOrNone]

/-- C6: the filtered pipeline excludes a movie exactly when its `adult`
value is truthy, or its `poster_path` is absent, `null` or the empty
string, or its `overview` is absent, `null` or the empty string; and an
excluded movie only increments the `skipped` counter — it is never split
and contributes nothing to any batch buffer or table. -/
theorem C6_filter_predicate :
    (∀ movie : JObj, shouldSkip movie = true ↔
      (truthy ((lookup movie "adult").getD (.jbool false)) = true ∨
       (lookup movie "poster_path" = none ∨
        lookup movie "poster_path" = some .jnull ∨
        lookup movie "poster_path" = some (.jstr "")) ∨
       (lookup movie "overview" = none ∨
        lookup movie "overview" = some .jnull ∨
        lookup movie "overview" = some (.jstr "")))) ∧
    (∀ (B : Nat) (st : FState) (movie : JObj), shouldSkip movie = true →
      fStepLine B st (.good movie) =
        .ok { st with skipped := st.skipped + 1 }) := by
  constructor
  · intro movie
    unfold shouldSkip
    split_ifs with h1 h2 h3
    · exact iff_of_true rfl (Or.inl h1)
    · exact iff_of_true rfl (Or.inr (Or.inl ((emptyOrNone_pyGet _ _).1 h2)))
    · exact iff_of_true rfl
        (Or.inr (Or.inr ((emptyOrNone_pyGet _ _).1 h3)))
    · constructor
      · intro hf
        exact absurd hf (by simp)
      · intro hr
        rcases hr with h | h | h
        · exact absurd h h1
        · exact absurd ((emptyOrNone_pyGet _ _).2 h) h2
        · exact absurd ((emptyOrNone_pyGet _ _).2 h) h3
  · intro B st movie h
    simp [fStepLine, h]

/-- Witness for C6 at a movie with `adult: true`. -/
theorem C6_filter_predicate_witness :
    shouldSkip adultMovie = true ∧
    fStepLine 1000 {} (.good adultMovie) =
      .ok { ({} : FState) with skipped := ({} : FState).skipped + 1 } :=
  ⟨rfl, C6_filter_predicate.2 1000 {} adultMovie rfl⟩

theorem pyGet_collection_null (movie : JObj) (k : String)
    (h : lookup movie "belongs_to_collection" = none ∨
         lookup movie "belongs_to_collection" = some .jnull) :
    pyGet (objFields (pyGet movie "belongs_to_collection")) k = .jnull := by
  rcases h with h | h <;> simp [pyGet, h, objFields, lookup]

/-- C8: splitting a movie whose `belongs_to_collection` is absent or
`null` does not error (given the record has an `id`), and the four
`collection_*` columns of the main tuple — indices 20 to 23 of the
schema — are all NULL. -/
theorem C8_missing_collection (movie : JObj) (mid : JVal)
    (hcol : lookup movie "belongs_to_collection" = none ∨
            lookup movie "belongs_to_collection" = some .jnull)
    (hid : lookup movie "id" = some mid) :
    ∃ mainRow ch, splitRecord movie = .ok (mainRow, ch) ∧
      mainRow[20]? = some .jnull ∧ mainRow[21]? = some .jnull ∧
      mainRow[22]? = some .jnull ∧ mainRow[23]? = some .jnull := by
  rcases hsp : splitRecord movie with e | P
  · exfalso
    simp [splitRecord, splitCore, hid] at hsp
  obtain ⟨M, C⟩ := P
  simp only [splitRecord, splitCore, hid] at hsp
  injection hsp with hsp
  injection hsp with hM hC
  refine ⟨M, C, rfl, ?_, ?_, ?_, ?_⟩ <;> rw [← hM, List.getElem?_map]
  · rw [show scalarSchema[20]? = some ("collection_id", "INTEGER") from rfl]
    show some (norm .tokenPair (resolveCol movie "collection_id")) = _
    rw [show resolveCol movie "collection_id" =
      pyGet (objFields (pyGet movie "belongs_to_collection")) "id" from rfl]
    rw [pyGet_collection_null _ _ hcol]
    rfl
  · rw [show scalarSchema[21]? = some ("collection_name", "TEXT") from rfl]
    show some (norm .tokenPair (resolveCol movie "collection_name")) = _
    rw [show resolveCol movie "collection_name" =
      pyGet (objFields (pyGet movie "belongs_to_collection")) "name" from rfl]
    rw [pyGet_collection_null _ _ hcol]
    rfl
  · rw [show scalarSchema[22]? =
      some ("collection_poster_path", "TEXT") from rfl]
    show some (norm .tokenPair (resolveCol movie "collection_poster_path")) = _
    rw [show resolveCol movie "collection_poster_path" =
      pyGet (objFields (pyGet movie "belongs_to_collection"))
        "poster_path" from rfl]
    rw [pyGet_collection_null _ _ hcol]
    rfl
  · rw [show scalarSchema[23]? =
      some ("collection_backdrop_path", "TEXT") from rfl]
    show some (norm .tokenPair (resolveCol movie "collection_backdrop_path")) = _
    rw [show resolveCol movie "collection_backdrop_path" =
      pyGet (objFields (pyGet movie "belongs_to_collection"))
        "backdrop_path" from rfl]
    rw [pyGet_collection_null _ _ hcol]
    rfl

/-- Witness for C8 at a movie with only an `id`. -/
theorem C8_missing_collection_witness :
    lookup sampleMovie "belongs_to_collection" = none ∧
    (∃ mainRow ch, splitRecord sampleMovie = .ok (mainRow, ch) ∧
      mainRow[20]? = some .jnull ∧ mainRow[21]? = some .jnull ∧
      mainRow[22]? = some .jnull ∧ mainRow[23]? = some .jnull) :=
  ⟨rfl, C8_missing_collection sampleMovie (.jint 7) (Or.inl rfl) rfl⟩

/-- C9: splitting a movie whose `genres` field is an array of `n`
elements produces exactly `n` tuples for the `movie_genres` child table,
and every one of those tuples begins with the movie's raw `id`. -/
theorem C9_genre_fanout (movie : JObj) (idv : JVal) (gs : List JVal)
    (hid : lookup movie "id" = some idv)
    (hg : lookup movie "genres" = some (.jarr gs)) :
    ∃ mainRow ch, splitRecord movie = .ok (mainRow, ch) ∧
      ch.movie_genres.length = gs.length ∧
      ∀ t ∈ ch.movie_genres, t.head? = some idv := by
  rcases hsp : splitRecord movie with e | P
  · exfalso
    simp [splitRecord, splitCore, hid] at hsp
  obtain ⟨M, C⟩ := P
  simp only [splitRecord, splitCore, hid] at hsp
  injection hsp with hsp
  injection hsp with hM hC
  have hgl : getList movie "genres" = gs := by
    simp [getList, pyGet, hg, arrItems]
  refine ⟨M, C, rfl, ?_, ?_⟩
  · rw [← hC]
    show ((getList movie "genres").map (genreRow .tokenPair idv)).length = _
    rw [hgl, List.length_map]
  · intro t ht
    rw [← hC] at ht
    obtain ⟨g, _, rfl⟩ := List.mem_map.1 ht
    rfl

/-- Witness for C9 at a movie with one genre. -/
theorem C9_genre_fanout_witness :
    lookup goodMovie "genres" =
      some (.jarr [.jobj [("id", .jint 1), ("name", .jstr "Action")]]) ∧
    (∃ mainRow ch, splitRecord goodMovie = .ok (mainRow, ch) ∧
      ch.movie_genres.length =
        [JVal.jobj [("id", .jint 1), ("name", .jstr "Action")]].length ∧
      ∀ t ∈ ch.movie_genres, t.head? = some (.jint 5)) :=
  ⟨rfl, C9_genre_fanout goodMovie (.jint 5)
    [.jobj [("id", .jint 1), ("name", .jstr "Action")]] rfl rfl⟩

/-- C10: the main tuple's `id` column goes through `_norm` while the
child back-reference uses the raw `movie["id"]`.  For `id = 0` the main
tuple's id element is NULL while every child tuple starts with the raw
integer `0` (shown here for both pipeline variants at a concrete movie),
so the two disagree; for any movie whose `id` is a nonzero integer the
main id element and every child tuple head agree on that integer. -/
theorem C10_id_normalization_mismatch :
    ((splitRecord zeroIdMovie).map
        (fun r => (r.1[0]?, r.2.movie_genres.map (fun t => t.head?))) =
      .ok (some .jnull, [some (.jint 0)])) ∧
    ((fSplitRecord zeroIdMovie).map
        (fun r => (r.1[0]?, r.2.movie_genres.map (fun t => t.head?))) =
      .ok (some .jnull, [some (.jint 0)])) ∧
    (some JVal.jnull ≠ some (JVal.jint 0)) ∧
    (∀ (movie : JObj) (n : Int), n ≠ 0 →
      lookup movie "id" = some (.jint n) →
      ∃ mainRow ch, splitRecord movie = .ok (mainRow, ch) ∧
        mainRow[0]? = some (.jint n) ∧
        ∀ t ∈ allRows ch, t.head? = some (.jint n)) := by
  refine ⟨rfl, rfl, ?_, ?_⟩
  · intro h
    exact JVal.noConfusion (Option.some.inj h)
  · intro movie n hn hid
    rcases hsp : splitRecord movie with e | P
    · exfalso
      simp [splitRecord, splitCore, hid] at hsp
    obtain ⟨M, C⟩ := P
    simp only [splitRecord, splitCore, hid] at hsp
    injection hsp with hsp
    injection hsp with hM hC
    refine ⟨M, C, rfl, ?_, ?_⟩
    · rw [← hM, List.getElem?_map]
      rw [show scalarSchema[0]? = some ("id", "INTEGER PRIMARY KEY") from rfl]
      show some (norm .tokenPair (resolveCol movie "id")) = _
      rw [show resolveCol movie "id" = pyGet movie "id" from rfl]
      rw [show pyGet movie "id" = (lookup movie "id").getD .jnull from rfl]
      rw [hid]
      show some (norm .tokenPair (.jint n)) = _
      simp [norm, hn]
    · intro t ht
      rw [← hC] at ht
      simp only [allRows, List.mem_append] at ht
      rcases ht with ((((h | h) | h) | h) | h) | h <;>
        · obtain ⟨x, _, rfl⟩ := List.mem_map.1 h
          rfl

/-- Witness for C10 at a movie with nonzero id and one genre. -/
theorem C10_id_normalization_mismatch_witness :
    ((5 : Int) ≠ 0) ∧ lookup goodMovie "id" = some (.jint 5) ∧
    (∃ mainRow ch, splitRecord goodMovie = .ok (mainRow, ch) ∧
      mainRow[0]? = some (.jint 5) ∧
      ∀ t ∈ allRows ch, t.head? = some (.jint 5)) :=
  ⟨by decide, rfl,
   C10_id_normalization_mismatch.2.2.2 goodMovie 5 (by decide) rfl⟩

end Tmdb
